import Mathlib

/-!
Shallow embedding of the date-resolution core of the photo_organizer
repository (src/photo_organizer/date_utils.py, organize_photos.py,
file_types/heif_extractor.py, file_types/raw_extractors.py), together
with theorems settling the frozen claims about it.

Datetimes are modelled as records of naturals; Python `datetime`
construction (which raises ValueError on out-of-range fields) is
modelled as an Option-valued smart constructor.  Effectful stages of
the resolver (file I/O, third-party parsers) are modelled as
environment-supplied `Except`-valued outcomes, where `Except.error`
stands for a raised Python exception.
-/

namespace PhotoOrganizer

/-- Model of a Python `datetime.datetime` value: year, month, day,
hour, minute, second, microsecond. -/
structure DT where
  year : Nat
  month : Nat
  day : Nat
  hour : Nat
  minute : Nat
  second : Nat
  usec : Nat
deriving Repr, DecidableEq

/-- Gregorian leap-year test, as used by Python's `datetime`. -/
def isLeapYear (y : Nat) : Bool :=
  y % 4 == 0 && (y % 100 != 0 || y % 400 == 0)

/-- Days in a month of a given year (Python `calendar`/`datetime` rule). -/
def daysInMonth (y m : Nat) : Nat :=
  if m = 2 then (if isLeapYear y then 29 else 28)
  else if m = 4 ∨ m = 6 ∨ m = 9 ∨ m = 11 then 30
  else 31

/-- Validity of a `DT`, exactly the conditions under which Python's
`datetime(year, month, day, hour, minute, second, usec)` constructor
succeeds instead of raising `ValueError` (MINYEAR = 1, MAXYEAR = 9999). -/
def validDT (dt : DT) : Prop :=
  1 ≤ dt.year ∧ dt.year ≤ 9999 ∧ 1 ≤ dt.month ∧ dt.month ≤ 12 ∧
  1 ≤ dt.day ∧ dt.day ≤ daysInMonth dt.year dt.month ∧
  dt.hour ≤ 23 ∧ dt.minute ≤ 59 ∧ dt.second ≤ 59 ∧ dt.usec ≤ 999999

instance (dt : DT) : Decidable (validDT dt) := by
  unfold validDT; infer_instance

/-- Model of `datetime(...)` construction: the constructed value when the
fields are in range, `none` when Python would raise `ValueError`. -/
def checkDT (dt : DT) : Option DT :=
  if validDT dt then some dt else none

/-- Days before January 1 of year `y` (Python `date.toordinal`'s
`_days_before_year`); the terms are ordered so natural subtraction is
exact, since `(y-1)/4 ≥ (y-1)/100`. -/
def daysBeforeYear (y : Nat) : Nat :=
  365 * (y - 1) + (y - 1) / 4 + (y - 1) / 400 - (y - 1) / 100

/-- Days in year `y` before the first day of month `m`. -/
def daysBeforeMonth (y : Nat) : Nat → Nat
  | 0 => 0
  | 1 => 0
  | m + 2 => daysBeforeMonth y (m + 1) + daysInMonth y (m + 1)

/-- Proleptic-Gregorian ordinal of the date part (Python `date.toordinal`). -/
def toOrdinal (dt : DT) : Nat :=
  daysBeforeYear dt.year + daysBeforeMonth dt.year dt.month + dt.day

/-- Total microseconds since the epoch of the proleptic calendar; on valid
datetimes this key realises Python's lexicographic `datetime` ordering. -/
def dtKey (dt : DT) : Nat :=
  (((toOrdinal dt * 24 + dt.hour) * 60 + dt.minute) * 60 + dt.second) * 1000000
    + dt.usec

/-- `a < b` as Python compares (valid) `datetime` values. -/
def dtLt (a b : DT) : Prop := dtKey a < dtKey b

instance (a b : DT) : Decidable (dtLt a b) := by
  unfold dtLt; infer_instance

/-- `dt + timedelta(days=1)` for a valid `dt` (calendar rollover). -/
def addDay (dt : DT) : DT :=
  if dt.day < daysInMonth dt.year dt.month then { dt with day := dt.day + 1 }
  else if dt.month < 12 then { dt with month := dt.month + 1, day := 1 }
  else { dt with year := dt.year + 1, month := 1, day := 1 }

/-! ### Digit and string primitives -/

/-- Numeric value of a decimal digit character. -/
def digitVal (c : Char) : Nat := c.toNat - 48

/-- Two-digit zero-padded decimal rendering (strftime `%m`, `%d`, `%H`,
`%M`, `%S` on values below 100). -/
def pad2 (n : Nat) : List Char :=
  [Nat.digitChar (n / 10 % 10), Nat.digitChar (n % 10)]

/-- Four-digit zero-padded decimal rendering (strftime `%Y`; all dates the
validator emits have `1990 ≤ year ≤ 9999`, where `%Y` is four digits). -/
def pad4 (n : Nat) : List Char :=
  [Nat.digitChar (n / 1000 % 10), Nat.digitChar (n / 100 % 10),
   Nat.digitChar (n / 10 % 10), Nat.digitChar (n % 10)]

/-- `dt.strftime("%Y:%m:%d %H:%M:%S")` as a character list. -/
def renderList (dt : DT) : List Char :=
  pad4 dt.year ++ (':' :: (pad2 dt.month ++ (':' :: (pad2 dt.day ++
    (' ' :: (pad2 dt.hour ++ (':' :: (pad2 dt.minute ++
      (':' :: pad2 dt.second)))))))))

/-- `dt.strftime("%Y:%m:%d %H:%M:%S")`: the canonical date string. -/
def renderCanonical (dt : DT) : String := String.mk (renderList dt)

/-- Decidable check that a string has the canonical shape
`YYYY:MM:DD HH:MM:SS` (19 characters, digits at digit positions,
colons and one space at the separator positions). -/
def isCanonicalShape (s : String) : Bool :=
  match s.toList with
  | [y1, y2, y3, y4, c1, a1, a2, c2, b1, b2, sp, h1, h2, c3, m1, m2, c4, s1, s2] =>
    y1.isDigit && y2.isDigit && y3.isDigit && y4.isDigit && c1 == ':' &&
    a1.isDigit && a2.isDigit && c2 == ':' && b1.isDigit && b2.isDigit &&
    sp == ' ' && h1.isDigit && h2.isDigit && c3 == ':' && m1.isDigit &&
    m2.isDigit && c4 == ':' && s1.isDigit && s2.isDigit
  | _ => false

/-- Python `str.strip()` on a character list. -/
def pyStrip (l : List Char) : List Char :=
  ((l.dropWhile Char.isWhitespace).reverse.dropWhile Char.isWhitespace).reverse

/-- Python `str.startswith(p)`. -/
def startsWithL : List Char → List Char → Bool
  | [], _ => true
  | _ :: _, [] => false
  | p :: ps, c :: cs => p == c && startsWithL ps cs

/-- `re.sub(r"[+-]\d{2}:\d{2}$", "", s)`: drop a trailing `±HH:MM`. -/
def subTzSuffix (l : List Char) : List Char :=
  match l.reverse with
  | m2 :: m1 :: ':' :: h2 :: h1 :: c :: rest =>
    if (c = '+' ∨ c = '-') ∧ m2.isDigit ∧ m1.isDigit ∧ h2.isDigit ∧ h1.isDigit
    then rest.reverse else l
  | _ => l

/-- Python `str.rstrip("Z")`: drop every trailing `Z`. -/
def rstripZ (l : List Char) : List Char :=
  (l.reverse.dropWhile (fun c => c == 'Z')).reverse

/-! ### strptime field readers

Python's `_strptime` compiles each directive to a regex fragment.  The
numeric two-digit fields (`%m`, `%d`, `%H`, `%M`, `%S`) are ordered
alternations that match two digits when the two-digit value is in the
directive's range and otherwise fall back to a single digit; since in
every format used by `_parse_date_flexible` the character after such a
field is never a digit, the alternation is deterministic and is modelled
by `read2or1`.  `%Y` is exactly four digits. -/

/-- Read exactly `n` decimal digits, returning their value. -/
def readNDigitsAux : Nat → Nat → List Char → Option (Nat × List Char)
  | 0, acc, l => some (acc, l)
  | n + 1, acc, l =>
    match l with
    | c :: r =>
      if c.isDigit then readNDigitsAux n (acc * 10 + digitVal c) r else none
    | [] => none

/-- Read exactly `n` decimal digits (regex `\d{n}`). -/
def readNDigits (n : Nat) (l : List Char) : Option (Nat × List Char) :=
  readNDigitsAux n 0 l

/-- Two-digits-if-in-`[lo2,hi2]`, else one-digit-if-`≥ lo1` field reader
(the shape of `_strptime`'s regexes for `%m`, `%d`, `%H`, `%M`, `%S`). -/
def read2or1 (lo2 hi2 lo1 : Nat) : List Char → Option (Nat × List Char)
  | c0 :: c1 :: r =>
    let v := 10 * digitVal c0 + digitVal c1
    if c0.isDigit ∧ c1.isDigit ∧ lo2 ≤ v ∧ v ≤ hi2 then some (v, r)
    else if c0.isDigit ∧ lo1 ≤ digitVal c0 then some (digitVal c0, c1 :: r)
    else none
  | [c0] =>
    if c0.isDigit ∧ lo1 ≤ digitVal c0 then some (digitVal c0, []) else none
  | [] => none

/-- Expect the literal character `c`. -/
def lit (c : Char) : List Char → Option (List Char)
  | x :: r => if x = c then some r else none
  | [] => none

/-- `%m`: month, regex `1[0-2]|0[1-9]|[1-9]`. -/
def readMonthF : List Char → Option (Nat × List Char) := read2or1 1 12 1

/-- `%d`: day, regex `3[01]|[12]\d|0[1-9]|[1-9]`. -/
def readDayF : List Char → Option (Nat × List Char) := read2or1 1 31 1

/-- `%H`: hour, regex `2[0-3]|[0-1]\d|\d`. -/
def readHourF : List Char → Option (Nat × List Char) := read2or1 0 23 0

/-- `%M`: minute, regex `[0-5]\d|\d`. -/
def readMinuteF : List Char → Option (Nat × List Char) := read2or1 0 59 0

/-- `%S`: second, regex `6[0-1]|[0-5]\d|\d`; the leap-second values 60-61
pass the regex but then fail `datetime` construction (`checkDT`). -/
def readSecondF : List Char → Option (Nat × List Char) := read2or1 0 61 0

/-- Value of a digit list, most significant first. -/
def valOfDigits (l : List Char) : Nat :=
  l.foldl (fun a c => a * 10 + digitVal c) 0

/-- `%f`: one to six digits, greedy, right-padded with zeros to
microseconds. -/
def readFrac (l : List Char) : Option (Nat × List Char) :=
  let ds := l.takeWhile Char.isDigit
  if ds.isEmpty then none
  else
    let d6 := ds.take 6
    some (valOfDigits d6 * 10 ^ (6 - d6.length), l.drop d6.length)

/-- `%z` consuming the whole remaining input (in every format of
`_parse_date_flexible` that uses `%z` it is the final directive and the
whole string must be consumed).  Accepted forms: `Z`, `±HH`, `±HH:`,
`±HHMM`, `±HH:MM`, `±HH:MM:`, `±HHMMSS`, `±HH:MM:SS`, with the offset
magnitude below 24 hours (otherwise Python's `timezone` constructor
raises and the format fails).  Fractional-second offsets (which the
CPython regex also admits) are not modelled; the offset itself is
discarded by the caller (`dt.replace(tzinfo=None)`). -/
def readTzEnd : List Char → Bool
  | ['Z'] => true
  | c :: h1 :: h2 :: r =>
    (c = '+' || c = '-') && h1.isDigit && h2.isDigit &&
    (let hh := 10 * digitVal h1 + digitVal h2
     match r with
     | [] => hh * 3600 < 86400
     | [':'] => hh * 3600 < 86400
     | ':' :: m1 :: m2 :: r2 =>
       m1.isDigit && m2.isDigit &&
       (let mm := 10 * digitVal m1 + digitVal m2
        match r2 with
        | [] => hh * 3600 + mm * 60 < 86400
        | [':'] => hh * 3600 + mm * 60 < 86400
        | [':', s1, s2] =>
          s1.isDigit && s2.isDigit &&
          decide (hh * 3600 + mm * 60 + (10 * digitVal s1 + digitVal s2) < 86400)
        | _ => false)
     | m1 :: m2 :: r2 =>
       m1.isDigit && m2.isDigit &&
       (let mm := 10 * digitVal m1 + digitVal m2
        match r2 with
        | [] => hh * 3600 + mm * 60 < 86400
        | [s1, s2] =>
          s1.isDigit && s2.isDigit &&
          decide (hh * 3600 + mm * 60 + (10 * digitVal s1 + digitVal s2) < 86400)
        | _ => false)
     | _ => false)
  | _ => false

/-! ### The format templates of `_parse_date_flexible` -/

/-- `%Y<sep>%m<sep>%d`, returning fields and the remaining input. -/
def structDate (sep : Char) (l : List Char) :
    Option (Nat × Nat × Nat × List Char) := do
  let (y, l1) ← readNDigits 4 l
  let l2 ← lit sep l1
  let (mo, l3) ← readMonthF l2
  let l4 ← lit sep l3
  let (d, l5) ← readDayF l4
  pure (y, mo, d, l5)

/-- `%H:%M:%S`, returning fields and the remaining input. -/
def structTime (l : List Char) : Option (Nat × Nat × Nat × List Char) := do
  let (h, l1) ← readHourF l
  let l2 ← lit ':' l1
  let (mi, l3) ← readMinuteF l2
  let l4 ← lit ':' l3
  let (s, l5) ← readSecondF l4
  pure (h, mi, s, l5)

/-- `%Y<dsep>%m<dsep>%d<tjoin>%H:%M:%S`: structural match of the six
datetime formats, before `datetime` construction. -/
def structFmt (dsep tjoin : Char) (l : List Char) : Option (DT × List Char) := do
  let (y, mo, d, l1) ← structDate dsep l
  let l2 ← lit tjoin l1
  let (h, mi, s, l3) ← structTime l2
  pure (⟨y, mo, d, h, mi, s, 0⟩, l3)

/-- strptime requires the whole input consumed
("unconverted data remains" otherwise). -/
def requireEnd (o : Option (DT × List Char)) : Option DT :=
  o.bind fun p => if p.2 = [] then some p.1 else none

/-- Trailing `%z` directive: the rest of the input must be a timezone
token; its value is discarded (`dt.replace(tzinfo=None)`). -/
def requireTz (o : Option (DT × List Char)) : Option DT :=
  o.bind fun p => if readTzEnd p.2 then some p.1 else none

/-- `.%f` continuation: a literal dot then fractional seconds. -/
def withFrac (o : Option (DT × List Char)) : Option (DT × List Char) :=
  o.bind fun p => do
    let r1 ← lit '.' p.2
    let (us, r2) ← readFrac r1
    pure ({ p.1 with usec := us }, r2)

/-- Date-only formats construct a datetime with the time at midnight. -/
def dateOnly (o : Option (Nat × Nat × Nat × List Char)) :
    Option (DT × List Char) :=
  o.map fun q => (⟨q.1, q.2.1, q.2.2.1, 0, 0, 0, 0⟩, q.2.2.2)

/-- The ordered format list of `_parse_date_flexible` (date_utils.py
lines 97-117): for each format, structural strptime match then
`datetime` construction (`checkDT`); the first success wins. -/
def tryAllFormats (l : List Char) : Option DT :=
  (requireEnd (structFmt ':' ' ' l)).bind checkDT <|>
  (requireEnd (structFmt '-' ' ' l)).bind checkDT <|>
  (requireEnd (structFmt '-' 'T' l)).bind checkDT <|>
  (requireTz (structFmt '-' 'T' l)).bind checkDT <|>
  (requireEnd (withFrac (structFmt '-' 'T' l))).bind checkDT <|>
  (requireTz (withFrac (structFmt '-' 'T' l))).bind checkDT <|>
  (requireTz (structFmt ':' ' ' l)).bind checkDT <|>
  (requireEnd (dateOnly (structDate '-' l))).bind checkDT <|>
  (requireEnd (dateOnly (structDate ':' l))).bind checkDT

/-- `_parse_date_flexible` (date_utils.py lines 86-125), with explicit
fuel for the tail-recursive retry after stripping a timezone suffix.
Each retry strictly shortens the (stripped) string, so the initial fuel
`l.length + 1` used by `parse_date_flexible` is never exhausted. -/
def parseFlexibleFuel : Nat → List Char → Option DT
  | 0, _ => none
  | fuel + 1, l =>
    let s := pyStrip l
    match tryAllFormats s with
    | some dt => some dt
    | none =>
      let cleaned := rstripZ (subTzSuffix s)
      if cleaned ≠ s then parseFlexibleFuel fuel cleaned else none

/-- `_parse_date_flexible(date_string)`. -/
def parse_date_flexible (l : List Char) : Option DT :=
  parseFlexibleFuel (l.length + 1) l

/-- The literal prefixes of `GARBAGE_DATE_PATTERNS` (date_utils.py
lines 22-29). -/
def GARBAGE_DATE_PATTERNS : List (List Char) :=
  ["0000:00:00".toList, "    :  :  ".toList, "0000-00-00".toList,
   "1970:01:01 00:00:00".toList, "1970-01-01 00:00:00".toList,
   "1970-01-01T00:00:00".toList]

/-- `validate_date(date_string)` (date_utils.py lines 32-83).  `now` is
the wall-clock value read by `datetime.now()`; a `none` input models
Python `None`. -/
def validate_date (now : DT) (date_string : Option String) : Option String :=
  match date_string with
  | none => none
  | some s0 =>
    let l := s0.toList
    if l = [] ∨ pyStrip l = [] then none
    else
      let s := pyStrip l
      if GARBAGE_DATE_PATTERNS.any (fun p => startsWithL p s) then none
      else
        match parse_date_flexible s with
        | none => none
        | some dt =>
          if dt.year < 1990 then none
          else if dtLt (addDay now) dt then none
          else some (renderCanonical dt)

/-! ### `extract_date_from_filename` (organize_photos.py lines 33-108) -/

/-- `os.path.splitext(filename)[0]` for a filename without directory
separators: drop the part from the last dot on, unless the characters
before that dot are all dots (leading-dot files keep their name). -/
def splitextRoot (l : List Char) : List Char :=
  match l.reverse.findIdx? (fun c => c == '.') with
  | none => l
  | some k =>
    let i := l.length - 1 - k
    if (l.take i).any (fun c => c ≠ '.') then l.take i else l

/-- Character class `[\s_at-]` of pattern 2's date/time joiner. -/
def isJoinChar (c : Char) : Bool :=
  c.isWhitespace || c == '_' || c == 'a' || c == 't' || c == '-'

/-- Character class `[.\-:]` of pattern 2's time separators. -/
def isTimeSep (c : Char) : Bool :=
  c == '.' || c == '-' || c == ':'

/-- Expect one character of the class `p`. -/
def litClass (p : Char → Bool) : List Char → Option (List Char)
  | c :: r => if p c then some r else none
  | [] => none

/-- Pattern 1 `(\d{4})(\d{2})(\d{2})[_-](\d{2})(\d{2})(\d{2})` matched at
the start of `l` (groups as their integer values, since the code
immediately applies `int()`). -/
def p1At (l : List Char) : Option (Nat × Nat × Nat × Nat × Nat × Nat) := do
  let (y, l1) ← readNDigits 4 l
  let (mo, l2) ← readNDigits 2 l1
  let (d, l3) ← readNDigits 2 l2
  let l4 ← litClass (fun c => c == '_' || c == '-') l3
  let (h, l5) ← readNDigits 2 l4
  let (mi, l6) ← readNDigits 2 l5
  let (s, _) ← readNDigits 2 l6
  pure (y, mo, d, h, mi, s)

/-- Pattern 2 `(\d{4})-(\d{2})-(\d{2})[\s_at-]*(\d{2})[.\-:](\d{2})[.\-:](\d{2})`
matched at the start of `l`.  The greedy joiner star is deterministic
maximal munch: the class contains no digits, so giving characters back
can never make the following `\d{2}` match. -/
def p2At (l : List Char) : Option (Nat × Nat × Nat × Nat × Nat × Nat) := do
  let (y, l1) ← readNDigits 4 l
  let l2 ← lit '-' l1
  let (mo, l3) ← readNDigits 2 l2
  let l4 ← lit '-' l3
  let (d, l5) ← readNDigits 2 l4
  let l6 := l5.dropWhile isJoinChar
  let (h, l7) ← readNDigits 2 l6
  let l8 ← litClass isTimeSep l7
  let (mi, l9) ← readNDigits 2 l8
  let l10 ← litClass isTimeSep l9
  let (s, _) ← readNDigits 2 l10
  pure (y, mo, d, h, mi, s)

/-- Optional `[_-]?` separator: consumed when present.  (If present but
not followed by two digits the position fails either way, since the
separator is not a digit.) -/
def skipOptSep : List Char → List Char
  | c :: r => if c = '_' ∨ c = '-' then r else c :: r
  | [] => []

/-- Pattern 3 `(\d{4})[_-]?(\d{2})[_-]?(\d{2})` matched at the start. -/
def p3At (l : List Char) : Option (Nat × Nat × Nat) := do
  let (y, l1) ← readNDigits 4 l
  let (mo, l2) ← readNDigits 2 (skipOptSep l1)
  let (d, _) ← readNDigits 2 (skipOptSep l2)
  pure (y, mo, d)

/-- `re.search`: the match at the leftmost position where one exists. -/
def searchAt {α : Type} (pAt : List Char → Option α) : List Char → Option α
  | [] => pAt []
  | c :: rest => (pAt (c :: rest)).orElse fun _ => searchAt pAt rest

/-- `_try_build_datetime` (organize_photos.py lines 111-138): `datetime`
construction returning `none` on `ValueError`.  The captured groups are
digit strings, so `int()` never fails. -/
def try_build_datetime (y mo d h mi s : Nat) : Option DT :=
  checkDT ⟨y, mo, d, h, mi, s, 0⟩

/-- `extract_date_from_filename(filename)` (organize_photos.py lines
33-108).  A tier whose regex matched and whose datetime built returns
`validate_date` of its rendering immediately (even when validation
returns `None`); only a regex non-match or a `ValueError` from
`datetime` falls through to the next tier. -/
def extract_date_from_filename (now : DT) (filename : String) : Option String :=
  let name := splitextRoot filename.toList
  let tier3 : Option String :=
    match searchAt p3At name with
    | some (y, mo, d) =>
      match try_build_datetime y mo d 12 0 0 with
      | some dt => validate_date now (some (renderCanonical dt))
      | none => none
    | none => none
  let tier2 : Option String :=
    match searchAt p2At name with
    | some (y, mo, d, h, mi, s) =>
      match try_build_datetime y mo d h mi s with
      | some dt => validate_date now (some (renderCanonical dt))
      | none => tier3
    | none => tier3
  match searchAt p1At name with
  | some (y, mo, d, h, mi, s) =>
    match try_build_datetime y mo d h mi s with
    | some dt => validate_date now (some (renderCanonical dt))
    | none => tier2
  | none => tier2

/-! ### `get_file_creation_date` (organize_photos.py lines 141-266)

The effectful stages (registered extractor, `open` + `extract_exif_data`,
`extract_exif_via_pillow`, `extract_xmp_date`, `get_filesystem_date`)
are supplied by an environment as `Except PyErr (Option String)`
outcomes; `Except.error` stands for the Python call raising.  The
filename stage is pure and embedded directly. -/

/-- The Python exception classes relevant to the resolver's handlers. -/
inductive PyErr where
  | osError        -- OSError (= IOError, PermissionError, ...)
  | valueError     -- ValueError
  | importError    -- ImportError
  | attrError      -- AttributeError
  | other          -- any other Exception
deriving Repr, DecidableEq

/-- The `except (OSError, IOError, ValueError)` handler around step 2
(organize_photos.py line 185). -/
def caughtByStep2 : PyErr → Bool
  | .osError => true
  | .valueError => true
  | _ => false

/-- Keys of `VIDEO_EXTRACTORS` (video_extractors.py lines 264-272);
`_VIDEO_EXTENSIONS = frozenset(VIDEO_EXTRACTORS.keys())`. -/
def VIDEO_EXTRACTORS_KEYS : List String :=
  [".mov", ".mp4", ".avi", ".m4v", ".3gp", ".mkv", ".webm"]

/-- Keys of `IMAGE_EXTRACTORS` (image_extractors.py lines 214-225). -/
def IMAGE_EXTRACTORS_KEYS : List String :=
  [".png", ".gif", ".webp", ".tiff", ".tif", ".bmp", ".jp2", ".j2k",
   ".mpo", ".avif"]

/-- Keys of `RAW_EXTRACTORS` (raw_extractors.py lines 135-144). -/
def RAW_EXTRACTORS_KEYS : List String :=
  [".dng", ".cr2", ".cr3", ".nef", ".arw", ".orf", ".rw2", ".raf"]

/-- Keys of `HEIF_EXTRACTORS` (heif_extractor.py lines 108-111). -/
def HEIF_EXTRACTORS_KEYS : List String := [".heic", ".heif"]

/-- Keys of `FILE_TYPE_EXTRACTORS = ALL_EXTRACTORS`
(file_types/__init__.py lines 46-51). -/
def FILE_TYPE_EXTRACTORS_KEYS : List String :=
  VIDEO_EXTRACTORS_KEYS ++ IMAGE_EXTRACTORS_KEYS ++ RAW_EXTRACTORS_KEYS ++
    HEIF_EXTRACTORS_KEYS

/-- Decidable equality of `Except` outcomes (used only by `deriving`
clauses and concrete `decide` evaluations). -/
def exceptDecEq {ε α : Type} [DecidableEq ε] [DecidableEq α] :
    DecidableEq (Except ε α)
  | .error e, .error f =>
    if h : e = f then .isTrue (by rw [h])
    else .isFalse (by intro hh; cases hh; exact h rfl)
  | .error _, .ok _ => .isFalse (by intro h; cases h)
  | .ok _, .error _ => .isFalse (by intro h; cases h)
  | .ok a, .ok b =>
    if h : a = b then .isTrue (by rw [h])
    else .isFalse (by intro hh; cases hh; exact h rfl)

instance {ε α : Type} [DecidableEq ε] [DecidableEq α] :
    DecidableEq (Except ε α) := exceptDecEq

/-- Python truthiness of an `Optional[str]`: `None` and `""` are falsy. -/
def truthyStr : Option String → Bool
  | none => false
  | some s => !s.isEmpty

/-- Environment of one resolver run on one file: the (lowercased)
extension, the basename, and the outcome of each effectful stage. -/
structure Env where
  ext : String
  filename : String
  extractorRes : Except PyErr (Option String)
  exifRes : Except PyErr (Option String)
  pillowRes : Except PyErr (Option String)
  xmpRes : Except PyErr (Option String)
  fsRes : Except PyErr (Option String)
deriving Repr, DecidableEq

/-- Outcome of the metadata stages 1-4, plus which stages were invoked. -/
structure MetaOut where
  md : Except PyErr (Option String)
  exifCalled : Bool
  pillowCalled : Bool
  xmpCalled : Bool
deriving Repr, DecidableEq

/-- Step 1 of `get_file_creation_date` (organize_photos.py lines
167-172): dispatch to the registered extractor.  The call
`extractor_func(file_path)` is not wrapped in any try/except, so a
raised exception propagates. -/
def resolverStep1 (env : Env) : Except PyErr (Option String) :=
  if FILE_TYPE_EXTRACTORS_KEYS.contains env.ext then
    match env.extractorRes with
    | .error e => .error e
    | .ok d => .ok (if truthyStr d then d else none)
  else .ok none

/-- One fallback block of steps 2-4 (organize_photos.py lines 178-198):
when `call` holds (`not metadata_date`, and for steps 2-3 `not
is_video`), run the stage; an exception of a class in `caught` is
swallowed (only step 2 has a handler, `except (OSError, IOError,
ValueError)`; steps 3 and 4 pass `fun _ => false`), any other exception
propagates; a truthy result replaces `metadata_date`. -/
def stepGuarded (call : Bool) (res : Except PyErr (Option String))
    (caught : PyErr → Bool) (md : Option String) :
    Except PyErr (Option String) :=
  if call then
    match res with
    | .error e => if caught e then .ok md else .error e
    | .ok d => .ok (if truthyStr d then d else md)
  else .ok md

/-- Steps 1-4 of `get_file_creation_date` (organize_photos.py lines
163-198), computing `metadata_date` and recording which stages ran. -/
def metadataStages (env : Env) : MetaOut :=
  match resolverStep1 env with
  | .error e =>
    { md := .error e, exifCalled := false, pillowCalled := false,
      xmpCalled := false }
  | .ok md1 =>
    let isVideo := VIDEO_EXTRACTORS_KEYS.contains env.ext
    let exifCalled := !truthyStr md1 && !isVideo
    match stepGuarded exifCalled env.exifRes caughtByStep2 md1 with
    | .error e =>
      { md := .error e, exifCalled, pillowCalled := false,
        xmpCalled := false }
    | .ok md2 =>
      let pillowCalled := !truthyStr md2 && !isVideo
      match stepGuarded pillowCalled env.pillowRes (fun _ => false) md2 with
      | .error e =>
        { md := .error e, exifCalled, pillowCalled, xmpCalled := false }
      | .ok md3 =>
        let xmpCalled := !truthyStr md3
        match stepGuarded xmpCalled env.xmpRes (fun _ => false) md3 with
        | .error e =>
          { md := .error e, exifCalled, pillowCalled, xmpCalled }
        | .ok md4 =>
          { md := .ok md4, exifCalled, pillowCalled, xmpCalled }

/-- `metadata_date` after stages 1-4. -/
def metadataDate (env : Env) : Except PyErr (Option String) :=
  (metadataStages env).md

/-- `_cross_reference_dates(filename, metadata_date, filename_date)`
(organize_photos.py lines 233-266): parse both with
`"%Y:%m:%d %H:%M:%S"`; warn (naming both values) when more than 86400
seconds apart; a parse failure is swallowed (`except (ValueError,
TypeError): pass`).  Returns the warning's payload when one is logged. -/
def cross_reference_dates (metadata_date filename_date : String) :
    Option (String × String) :=
  match (requireEnd (structFmt ':' ' ' metadata_date.toList)).bind checkDT,
        (requireEnd (structFmt ':' ' ' filename_date.toList)).bind checkDT with
  | some a, some b =>
    if ((dtKey a : Int) / 1000000 - (dtKey b : Int) / 1000000).natAbs > 86400
    then some (metadata_date, filename_date) else none
  | _, _ => none

/-- Full outcome of one `get_file_creation_date` run: the returned value
(or propagated exception), the stage-invocation flags, and the payload
of the date-mismatch warning when one was logged. -/
structure ResolveOut where
  result : Except PyErr (Option String)
  exifCalled : Bool
  pillowCalled : Bool
  xmpCalled : Bool
  fsCalled : Bool
  mismatchWarn : Option (String × String)
deriving Repr, DecidableEq

/-- `get_file_creation_date(file_path)` (organize_photos.py lines
141-230): metadata stages 1-4, then the filename stage, the
cross-reference, and the filesystem fallback. -/
def get_file_creation_date (now : DT) (env : Env) : ResolveOut :=
  let m := metadataStages env
  match m.md with
  | .error e =>
    { result := .error e, exifCalled := m.exifCalled,
      pillowCalled := m.pillowCalled, xmpCalled := m.xmpCalled,
      fsCalled := false, mismatchWarn := none }
  | .ok metadata_date =>
    let filename_date := extract_date_from_filename now env.filename
    if truthyStr metadata_date && truthyStr filename_date then
      { result := .ok metadata_date, exifCalled := m.exifCalled,
        pillowCalled := m.pillowCalled, xmpCalled := m.xmpCalled,
        fsCalled := false,
        mismatchWarn :=
          match metadata_date, filename_date with
          | some md, some fd => cross_reference_dates md fd
          | _, _ => none }
    else if truthyStr metadata_date then
      { result := .ok metadata_date, exifCalled := m.exifCalled,
        pillowCalled := m.pillowCalled, xmpCalled := m.xmpCalled,
        fsCalled := false, mismatchWarn := none }
    else if truthyStr filename_date then
      { result := .ok filename_date, exifCalled := m.exifCalled,
        pillowCalled := m.pillowCalled, xmpCalled := m.xmpCalled,
        fsCalled := false, mismatchWarn := none }
    else
      match env.fsRes with
      | .error e =>
        { result := .error e, exifCalled := m.exifCalled,
          pillowCalled := m.pillowCalled, xmpCalled := m.xmpCalled,
          fsCalled := true, mismatchWarn := none }
      | .ok fs =>
        { result := .ok (if truthyStr fs then fs else none),
          exifCalled := m.exifCalled, pillowCalled := m.pillowCalled,
          xmpCalled := m.xmpCalled, fsCalled := true, mismatchWarn := none }

/-! ### HEIC/HEIF plugin registration and the RAW extractor's optional
dependency (heif_extractor.py, raw_extractors.py) -/

/-- Observable outcome of one `extract_heif_creation_date` call. -/
structure HeifCall where
  result : Option String
  flagAfter : Bool
  importAttempted : Bool
  warned : Bool
deriving Repr, DecidableEq

/-- `_ensure_heif_support()` (heif_extractor.py lines 22-38) as a
function of the module-global `_heif_registered` flag and of whether
`import pillow_heif` succeeds.  Returns (return value, flag afterwards,
whether the import was attempted, whether the warning was logged).
On `ImportError` the flag is left unset. -/
def ensure_heif_support (heif_registered importOk : Bool) :
    Bool × Bool × Bool × Bool :=
  if heif_registered then (true, heif_registered, false, false)
  else if importOk then (true, true, true, false)
  else (false, false, true, true)

/-- `extract_heif_creation_date(file_path)` (heif_extractor.py lines
41-104) as a state transformer on the `_heif_registered` flag.
`fileDate` abstracts the PIL read of the given file (whose body catches
every `Exception` internally and yields a validated date or `None`). -/
def extract_heif_creation_date (heif_registered importOk : Bool)
    (fileDate : Option String) : HeifCall :=
  match ensure_heif_support heif_registered importOk with
  | (ok, flagAfter, att, warned) =>
    if ok then
      { result := fileDate, flagAfter, importAttempted := att, warned }
    else
      { result := none, flagAfter, importAttempted := att, warned }

/-- `n` consecutive `extract_heif_creation_date` calls from a given flag
state: total warnings logged, total import attempts, final flag. -/
def heifRun (importOk : Bool) (fileDate : Option String) :
    Nat → Bool → Nat × Nat × Bool
  | 0, flag => (0, 0, flag)
  | n + 1, flag =>
    let c := extract_heif_creation_date flag importOk fileDate
    let r := heifRun importOk fileDate n c.flagAfter
    ((if c.warned then 1 else 0) + r.1, (if c.importAttempted then 1 else 0) + r.2.1,
      r.2.2)

/-- `_extract_raw_creation_date` (raw_extractors.py lines 25-91):
`import exifread` is executed on every call; when it raises
`ImportError` the warning is logged and `None` returned (no state is
kept).  Returns (result, whether the missing-dependency warning was
logged on this call). -/
def extract_raw_creation_date (exifreadOk : Bool) (fileDate : Option String) :
    Option String × Bool :=
  if exifreadOk then (fileDate, false) else (none, true)

/-- Warnings logged over `n` calls to the RAW extractor with `exifread`
absent. -/
def rawWarnRun : Nat → Nat
  | 0 => 0
  | n + 1 => (if (extract_raw_creation_date false none).2 then 1 else 0) + rawWarnRun n

/-! ### Helper lemmas -/

theorem digitChar_isDigit : ∀ k, k < 10 → (Nat.digitChar k).isDigit = true := by
  decide

theorem digitChar_digitVal : ∀ k, k < 10 → digitVal (Nat.digitChar k) = k := by
  decide

theorem digitChar_not_ws : ∀ k, k < 10 → (Nat.digitChar k).isWhitespace = false := by
  decide

theorem digitChar_inj : ∀ k, k < 10 → ∀ j, j < 10 →
    Nat.digitChar k = Nat.digitChar j → k = j := by
  decide

theorem readNDigits_pad2 (v : Nat) (hv : v ≤ 99) (r : List Char) :
    readNDigits 2 (pad2 v ++ r) = some (v, r) := by
  have h1 : v / 10 % 10 < 10 := Nat.mod_lt _ (by norm_num)
  have h2 : v % 10 < 10 := Nat.mod_lt _ (by norm_num)
  simp only [readNDigits, pad2, List.cons_append, List.nil_append, readNDigitsAux,
    digitChar_isDigit _ h1, digitChar_isDigit _ h2, if_true,
    digitChar_digitVal _ h1, digitChar_digitVal _ h2]
  congr 1
  exact Prod.ext (by omega) rfl

theorem readNDigits_pad4 (v : Nat) (hv : v ≤ 9999) (r : List Char) :
    readNDigits 4 (pad4 v ++ r) = some (v, r) := by
  have h1 : v / 1000 % 10 < 10 := Nat.mod_lt _ (by norm_num)
  have h2 : v / 100 % 10 < 10 := Nat.mod_lt _ (by norm_num)
  have h3 : v / 10 % 10 < 10 := Nat.mod_lt _ (by norm_num)
  have h4 : v % 10 < 10 := Nat.mod_lt _ (by norm_num)
  simp only [readNDigits, pad4, List.cons_append, List.nil_append, readNDigitsAux,
    digitChar_isDigit _ h1, digitChar_isDigit _ h2, digitChar_isDigit _ h3,
    digitChar_isDigit _ h4, if_true,
    digitChar_digitVal _ h1, digitChar_digitVal _ h2,
    digitChar_digitVal _ h3, digitChar_digitVal _ h4]
  congr 1
  exact Prod.ext (by omega) rfl

theorem read2or1_pad2 (lo2 hi2 lo1 v : Nat) (h1 : lo2 ≤ v) (h2 : v ≤ hi2)
    (h99 : hi2 ≤ 99) (r : List Char) :
    read2or1 lo2 hi2 lo1 (pad2 v ++ r) = some (v, r) := by
  have ha : v / 10 % 10 < 10 := Nat.mod_lt _ (by norm_num)
  have hb : v % 10 < 10 := Nat.mod_lt _ (by norm_num)
  have hval : 10 * digitVal (Nat.digitChar (v / 10 % 10))
      + digitVal (Nat.digitChar (v % 10)) = v := by
    rw [digitChar_digitVal _ ha, digitChar_digitVal _ hb]; omega
  simp only [pad2, List.cons_append, List.nil_append, read2or1, hval]
  rw [if_pos ⟨digitChar_isDigit _ ha, digitChar_isDigit _ hb, h1, h2⟩]

theorem lit_cons (c : Char) (r : List Char) : lit c (c :: r) = some r := by
  simp [lit]

theorem checkDT_some {dt dt' : DT} (h : checkDT dt = some dt') :
    dt' = dt ∧ validDT dt := by
  unfold checkDT at h
  split at h
  · exact ⟨(Option.some_injective _ h).symm, by assumption⟩
  · exact absurd h (by simp)

theorem bind_checkDT_valid {o : Option DT} {dt : DT}
    (h : o.bind checkDT = some dt) : validDT dt := by
  cases o with
  | none => exact absurd h (by simp)
  | some b =>
    obtain ⟨h1, h2⟩ := checkDT_some h
    exact h1 ▸ h2

theorem orElse_eq_some {α : Type} {a : Option α} {b : Unit → Option α} {x : α}
    (h : a.orElse b = some x) : a = some x ∨ b () = some x := by
  cases a with
  | none => right; simpa [Option.orElse] using h
  | some v => left; simpa [Option.orElse] using h

theorem tryAllFormats_valid {l : List Char} {dt : DT}
    (h : tryAllFormats l = some dt) : validDT dt := by
  unfold tryAllFormats at h
  rcases orElse_eq_some h with h | h
  · exact bind_checkDT_valid h
  rcases orElse_eq_some h with h | h
  · exact bind_checkDT_valid h
  rcases orElse_eq_some h with h | h
  · exact bind_checkDT_valid h
  rcases orElse_eq_some h with h | h
  · exact bind_checkDT_valid h
  rcases orElse_eq_some h with h | h
  · exact bind_checkDT_valid h
  rcases orElse_eq_some h with h | h
  · exact bind_checkDT_valid h
  rcases orElse_eq_some h with h | h
  · exact bind_checkDT_valid h
  rcases orElse_eq_some h with h | h
  · exact bind_checkDT_valid h
  · exact bind_checkDT_valid h

theorem parseFlexibleFuel_valid :
    ∀ fuel (l : List Char) (dt : DT),
      parseFlexibleFuel fuel l = some dt → validDT dt := by
  intro fuel
  induction fuel with
  | zero => intro l dt h; exact absurd h (by simp [parseFlexibleFuel])
  | succ n ih =>
    intro l dt h
    simp only [parseFlexibleFuel] at h
    split at h
    · rename_i d0 htry
      injection h with h
      exact h ▸ tryAllFormats_valid htry
    · split at h
      · exact ih _ _ h
      · exact absurd h (by simp)

theorem parse_date_flexible_valid {l : List Char} {dt : DT}
    (h : parse_date_flexible l = some dt) : validDT dt :=
  parseFlexibleFuel_valid _ _ _ h

/-- Every branch of `validate_date` that returns `some` returns the
canonical rendering of a valid, in-range, non-future datetime. -/
theorem validate_some_spec {now : DT} {inp : Option String} {d : String}
    (h : validate_date now inp = some d) :
    ∃ dt, validDT dt ∧ 1990 ≤ dt.year ∧ ¬ dtLt (addDay now) dt ∧
      d = renderCanonical dt := by
  unfold validate_date at h
  cases inp with
  | none => exact absurd h (by simp)
  | some s0 =>
    simp only at h
    split at h
    · exact absurd h (by simp)
    split at h
    · exact absurd h (by simp)
    split at h
    · exact absurd h (by simp)
    rename_i dt hp
    split at h
    · exact absurd h (by simp)
    rename_i hyear
    split at h
    · exact absurd h (by simp)
    rename_i hfut
    injection h with h
    exact ⟨dt, parse_date_flexible_valid hp, by omega, hfut, h.symm⟩

theorem daysInMonth_le (y m : Nat) : daysInMonth y m ≤ 31 := by
  unfold daysInMonth
  split
  · split <;> omega
  · split <;> omega

theorem daysInMonth_pos (y m : Nat) : 1 ≤ daysInMonth y m := by
  unfold daysInMonth
  split
  · split <;> omega
  · split <;> omega

theorem structDate_pads (sep : Char) (y mo d : Nat) (r : List Char)
    (hy : y ≤ 9999) (hmo1 : 1 ≤ mo) (hmo2 : mo ≤ 12)
    (hd1 : 1 ≤ d) (hd2 : d ≤ 31) :
    structDate sep (pad4 y ++ (sep :: (pad2 mo ++ (sep :: (pad2 d ++ r))))) =
      some (y, mo, d, r) := by
  simp only [structDate, readMonthF, readDayF, readNDigits_pad4 y hy, lit_cons,
    read2or1_pad2 1 12 1 mo hmo1 hmo2 (by norm_num),
    read2or1_pad2 1 31 1 d hd1 hd2 (by norm_num), Option.bind_eq_bind,
    Option.some_bind]
  rfl

theorem structTime_pads (h mi s : Nat) (r : List Char)
    (hh : h ≤ 23) (hmi : mi ≤ 59) (hs : s ≤ 59) :
    structTime (pad2 h ++ (':' :: (pad2 mi ++ (':' :: (pad2 s ++ r))))) =
      some (h, mi, s, r) := by
  simp only [structTime, readHourF, readMinuteF, readSecondF, lit_cons,
    read2or1_pad2 0 23 0 h (Nat.zero_le _) hh (by norm_num),
    read2or1_pad2 0 59 0 mi (Nat.zero_le _) hmi (by norm_num),
    read2or1_pad2 0 61 0 s (Nat.zero_le _) (by omega) (by norm_num),
    Option.bind_eq_bind, Option.some_bind]
  rfl

theorem structFmt_render (dt : DT) (hv : validDT dt) :
    structFmt ':' ' ' (renderList dt) =
      some (⟨dt.year, dt.month, dt.day, dt.hour, dt.minute, dt.second, 0⟩, []) := by
  obtain ⟨h1, h2, h3, h4, h5, h6, h7, h8, h9, h10⟩ := hv
  have hday : dt.day ≤ 31 := le_trans h6 (daysInMonth_le dt.year dt.month)
  have hd := structDate_pads ':' dt.year dt.month dt.day
    (' ' :: (pad2 dt.hour ++ (':' :: (pad2 dt.minute ++ (':' :: pad2 dt.second)))))
    h2 h3 h4 h5 hday
  have ht := structTime_pads dt.hour dt.minute dt.second [] h7 h8 h9
  simp only [List.append_nil] at ht
  rw [show renderList dt = pad4 dt.year ++ (':' :: (pad2 dt.month ++ (':' ::
    (pad2 dt.day ++ (' ' :: (pad2 dt.hour ++ (':' :: (pad2 dt.minute ++
    (':' :: pad2 dt.second))))))))) from rfl]
  simp only [structFmt, hd, Option.bind_eq_bind, Option.some_bind, lit_cons, ht]
  rfl

theorem tryAllFormats_render (dt : DT) (hv : validDT dt) :
    tryAllFormats (renderList dt) =
      some ⟨dt.year, dt.month, dt.day, dt.hour, dt.minute, dt.second, 0⟩ := by
  have hv0 : validDT ⟨dt.year, dt.month, dt.day, dt.hour, dt.minute,
      dt.second, 0⟩ := by
    obtain ⟨h1, h2, h3, h4, h5, h6, h7, h8, h9, h10⟩ := hv
    exact ⟨h1, h2, h3, h4, h5, h6, h7, h8, h9, show (0 : Nat) ≤ 999999 by norm_num⟩
  unfold tryAllFormats
  rw [show requireEnd (structFmt ':' ' ' (renderList dt)) =
      some ⟨dt.year, dt.month, dt.day, dt.hour, dt.minute, dt.second, 0⟩ from by
    rw [requireEnd, structFmt_render dt hv]; rfl]
  rw [show (some (⟨dt.year, dt.month, dt.day, dt.hour, dt.minute, dt.second,
      0⟩ : DT)).bind checkDT =
      some ⟨dt.year, dt.month, dt.day, dt.hour, dt.minute, dt.second, 0⟩ from by
    simp [checkDT, hv0]]
  rfl

/-- `renderList` written out as an explicit head, middle and last
character, for end-of-string reasoning. -/
theorem renderList_explicit (dt : DT) :
    renderList dt =
      Nat.digitChar (dt.year / 1000 % 10) ::
        ([Nat.digitChar (dt.year / 100 % 10), Nat.digitChar (dt.year / 10 % 10),
          Nat.digitChar (dt.year % 10), ':',
          Nat.digitChar (dt.month / 10 % 10), Nat.digitChar (dt.month % 10), ':',
          Nat.digitChar (dt.day / 10 % 10), Nat.digitChar (dt.day % 10), ' ',
          Nat.digitChar (dt.hour / 10 % 10), Nat.digitChar (dt.hour % 10), ':',
          Nat.digitChar (dt.minute / 10 % 10), Nat.digitChar (dt.minute % 10),
          ':', Nat.digitChar (dt.second / 10 % 10)] ++
          [Nat.digitChar (dt.second % 10)]) := rfl

theorem pyStrip_of_ends (c d : Char) (m : List Char)
    (hc : c.isWhitespace = false) (hd : d.isWhitespace = false) :
    pyStrip (c :: (m ++ [d])) = c :: (m ++ [d]) := by
  unfold pyStrip
  rw [List.dropWhile_cons, if_neg (by simp [hc])]
  rw [show (c :: (m ++ [d])).reverse = d :: (m.reverse ++ [c]) from by simp]
  rw [List.dropWhile_cons, if_neg (by simp [hd])]
  simp

theorem pyStrip_render (dt : DT) :
    pyStrip (renderList dt) = renderList dt := by
  have h1 : (Nat.digitChar (dt.year / 1000 % 10)).isWhitespace = false :=
    digitChar_not_ws _ (Nat.mod_lt _ (by norm_num))
  have h2 : (Nat.digitChar (dt.second % 10)).isWhitespace = false :=
    digitChar_not_ws _ (Nat.mod_lt _ (by norm_num))
  rw [renderList_explicit dt]
  exact pyStrip_of_ends _ _ _ h1 h2


theorem parse_render (dt : DT) (hv : validDT dt) :
    parse_date_flexible (renderList dt) =
      some ⟨dt.year, dt.month, dt.day, dt.hour, dt.minute, dt.second, 0⟩ := by
  unfold parse_date_flexible
  rw [parseFlexibleFuel]
  simp only [pyStrip_render dt, tryAllFormats_render dt hv]

theorem digit_lit_iff : ∀ k, k < 10 →
    (('0' = Nat.digitChar k ↔ k = 0) ∧ ('1' = Nat.digitChar k ↔ k = 1) ∧
     ('7' = Nat.digitChar k ↔ k = 7) ∧ ('9' = Nat.digitChar k ↔ k = 9) ∧
     ¬ (' ' = Nat.digitChar k)) := by
  decide

theorem garbage_render_false (dt : DT) (hy : 1990 ≤ dt.year)
    (hy2 : dt.year ≤ 9999) :
    (GARBAGE_DATE_PATTERNS.any fun p => startsWithL p (renderList dt)) = false := by
  have k1 : dt.year / 1000 % 10 < 10 := Nat.mod_lt _ (by norm_num)
  have k2 : dt.year / 100 % 10 < 10 := Nat.mod_lt _ (by norm_num)
  have k3 : dt.year / 10 % 10 < 10 := Nat.mod_lt _ (by norm_num)
  have k4 : dt.year % 10 < 10 := Nat.mod_lt _ (by norm_num)
  rw [renderList_explicit dt]
  simp only [GARBAGE_DATE_PATTERNS, List.any_cons, List.any_nil,
    Bool.or_eq_false_iff]
  refine ⟨?_, ?_, ?_, ?_, ?_, ?_, trivial⟩
  · rw [Bool.eq_false_iff]
    intro hc
    simp only [show ("0000:00:00".toList : List Char) =
      ['0', '0', '0', '0', ':', '0', '0', ':', '0', '0'] from rfl,
      startsWithL, List.cons_append, Bool.and_eq_true, beq_iff_eq] at hc
    obtain ⟨c1, c2, c3, c4, -⟩ := hc
    have e1 := (digit_lit_iff _ k1).1.mp c1
    have e2 := (digit_lit_iff _ k2).1.mp c2
    have e3 := (digit_lit_iff _ k3).1.mp c3
    have e4 := (digit_lit_iff _ k4).1.mp c4
    omega
  · rw [Bool.eq_false_iff]
    intro hc
    simp only [show ("    :  :  ".toList : List Char) =
      [' ', ' ', ' ', ' ', ':', ' ', ' ', ':', ' ', ' '] from rfl,
      startsWithL, List.cons_append, Bool.and_eq_true, beq_iff_eq] at hc
    exact (digit_lit_iff _ k1).2.2.2.2 hc.1
  · rw [Bool.eq_false_iff]
    intro hc
    simp only [show ("0000-00-00".toList : List Char) =
      ['0', '0', '0', '0', '-', '0', '0', '-', '0', '0'] from rfl,
      startsWithL, List.cons_append, Bool.and_eq_true, beq_iff_eq] at hc
    obtain ⟨c1, c2, c3, c4, -⟩ := hc
    have e1 := (digit_lit_iff _ k1).1.mp c1
    have e2 := (digit_lit_iff _ k2).1.mp c2
    have e3 := (digit_lit_iff _ k3).1.mp c3
    have e4 := (digit_lit_iff _ k4).1.mp c4
    omega
  · rw [Bool.eq_false_iff]
    intro hc
    simp only [show ("1970:01:01 00:00:00".toList : List Char) =
      ['1', '9', '7', '0', ':', '0', '1', ':', '0', '1', ' ', '0', '0', ':',
       '0', '0', ':', '0', '0'] from rfl,
      startsWithL, List.cons_append, Bool.and_eq_true, beq_iff_eq] at hc
    obtain ⟨c1, c2, c3, c4, -⟩ := hc
    have e1 := (digit_lit_iff _ k1).2.1.mp c1
    have e2 := (digit_lit_iff _ k2).2.2.2.1.mp c2
    have e3 := (digit_lit_iff _ k3).2.2.1.mp c3
    have e4 := (digit_lit_iff _ k4).1.mp c4
    omega
  · rw [Bool.eq_false_iff]
    intro hc
    simp only [show ("1970-01-01 00:00:00".toList : List Char) =
      ['1', '9', '7', '0', '-', '0', '1', '-', '0', '1', ' ', '0', '0', ':',
       '0', '0', ':', '0', '0'] from rfl,
      startsWithL, List.cons_append, Bool.and_eq_true, beq_iff_eq] at hc
    obtain ⟨c1, c2, c3, c4, -⟩ := hc
    have e1 := (digit_lit_iff _ k1).2.1.mp c1
    have e2 := (digit_lit_iff _ k2).2.2.2.1.mp c2
    have e3 := (digit_lit_iff _ k3).2.2.1.mp c3
    have e4 := (digit_lit_iff _ k4).1.mp c4
    omega
  · rw [Bool.eq_false_iff]
    intro hc
    simp only [show ("1970-01-01T00:00:00".toList : List Char) =
      ['1', '9', '7', '0', '-', '0', '1', '-', '0', '1', 'T', '0', '0', ':',
       '0', '0', ':', '0', '0'] from rfl,
      startsWithL, List.cons_append, Bool.and_eq_true, beq_iff_eq] at hc
    obtain ⟨c1, c2, c3, c4, -⟩ := hc
    have e1 := (digit_lit_iff _ k1).2.1.mp c1
    have e2 := (digit_lit_iff _ k2).2.2.2.1.mp c2
    have e3 := (digit_lit_iff _ k3).2.2.1.mp c3
    have e4 := (digit_lit_iff _ k4).1.mp c4
    omega


theorem validate_eq_some_of (now : DT) (s : String) (dt : DT)
    (h1 : ¬ (s.toList = [] ∨ pyStrip s.toList = []))
    (h2 : (GARBAGE_DATE_PATTERNS.any fun p => startsWithL p (pyStrip s.toList))
      = false)
    (h3 : parse_date_flexible (pyStrip s.toList) = some dt)
    (h4 : ¬ dt.year < 1990)
    (h5 : ¬ dtLt (addDay now) dt) :
    validate_date now (some s) = some (renderCanonical dt) := by
  unfold validate_date
  simp only [h3, if_neg h1, h2, Bool.false_eq_true, if_false, if_neg h4,
    if_neg h5]

theorem validate_eq_none_year (now : DT) (s : String) (dt : DT)
    (h1 : ¬ (s.toList = [] ∨ pyStrip s.toList = []))
    (h2 : (GARBAGE_DATE_PATTERNS.any fun p => startsWithL p (pyStrip s.toList))
      = false)
    (h3 : parse_date_flexible (pyStrip s.toList) = some dt)
    (h4 : dt.year < 1990) :
    validate_date now (some s) = none := by
  unfold validate_date
  simp only [h3, if_neg h1, h2, Bool.false_eq_true, if_false, if_pos h4]

theorem validate_eq_none_future (now : DT) (s : String) (dt : DT)
    (h1 : ¬ (s.toList = [] ∨ pyStrip s.toList = []))
    (h2 : (GARBAGE_DATE_PATTERNS.any fun p => startsWithL p (pyStrip s.toList))
      = false)
    (h3 : parse_date_flexible (pyStrip s.toList) = some dt)
    (h4 : ¬ dt.year < 1990)
    (h5 : dtLt (addDay now) dt) :
    validate_date now (some s) = none := by
  unfold validate_date
  simp only [h3, if_neg h1, h2, Bool.false_eq_true, if_false, if_neg h4,
    if_pos h5]

theorem dtKey_zero_usec (dt : DT) :
    dtKey ⟨dt.year, dt.month, dt.day, dt.hour, dt.minute, dt.second, 0⟩
      + dt.usec = dtKey dt := by
  simp only [dtKey, toOrdinal]
  omega

theorem renderList_ne_nil (dt : DT) : renderList dt ≠ [] := by
  rw [renderList_explicit dt]
  simp

theorem validate_render (now dt : DT) (hv : validDT dt) (hy : 1990 ≤ dt.year)
    (hf : ¬ dtLt (addDay now) dt) :
    validate_date now (some (renderCanonical dt)) = some (renderCanonical dt) := by
  have hy2 : dt.year ≤ 9999 := hv.2.1
  have hf0 : ¬ dtLt (addDay now)
      ⟨dt.year, dt.month, dt.day, dt.hour, dt.minute, dt.second, 0⟩ := by
    intro hcon
    apply hf
    have hk := dtKey_zero_usec dt
    unfold dtLt at hcon ⊢
    omega
  have htl : (renderCanonical dt).toList = renderList dt := rfl
  have h3 : parse_date_flexible (pyStrip (renderCanonical dt).toList) =
      some ⟨dt.year, dt.month, dt.day, dt.hour, dt.minute, dt.second, 0⟩ := by
    rw [htl, pyStrip_render dt]
    exact parse_render dt hv
  have h1 : ¬ ((renderCanonical dt).toList = [] ∨
      pyStrip (renderCanonical dt).toList = []) := by
    rw [htl, pyStrip_render dt]
    simp [renderList_ne_nil dt]
  have h2 : (GARBAGE_DATE_PATTERNS.any fun p =>
      startsWithL p (pyStrip (renderCanonical dt).toList)) = false := by
    rw [htl, pyStrip_render dt]
    exact garbage_render_false dt hy hy2
  have h4 : ¬ (⟨dt.year, dt.month, dt.day, dt.hour, dt.minute, dt.second, 0⟩
      : DT).year < 1990 := by
    show ¬ dt.year < 1990
    omega
  have hmain := validate_eq_some_of now (renderCanonical dt)
    ⟨dt.year, dt.month, dt.day, dt.hour, dt.minute, dt.second, 0⟩
    h1 h2 h3 h4 hf0
  exact hmain

theorem shape_render (dt : DT) : isCanonicalShape (renderCanonical dt) = true := by
  have hAll : ∀ n : Nat, (Nat.digitChar (n % 10)).isDigit = true :=
    fun n => digitChar_isDigit _ (Nat.mod_lt _ (by norm_num))
  unfold isCanonicalShape
  rw [show (renderCanonical dt).toList =
      Nat.digitChar (dt.year / 1000 % 10) :: Nat.digitChar (dt.year / 100 % 10)
      :: Nat.digitChar (dt.year / 10 % 10) :: Nat.digitChar (dt.year % 10)
      :: ':' :: Nat.digitChar (dt.month / 10 % 10)
      :: Nat.digitChar (dt.month % 10) :: ':'
      :: Nat.digitChar (dt.day / 10 % 10) :: Nat.digitChar (dt.day % 10)
      :: ' ' :: Nat.digitChar (dt.hour / 10 % 10)
      :: Nat.digitChar (dt.hour % 10) :: ':'
      :: Nat.digitChar (dt.minute / 10 % 10) :: Nat.digitChar (dt.minute % 10)
      :: ':' :: Nat.digitChar (dt.second / 10 % 10)
      :: Nat.digitChar (dt.second % 10) :: [] from rfl]
  simp [hAll]


theorem dBM_step (y k : Nat) :
    daysBeforeMonth y k ≤ daysBeforeMonth y (k + 1) := by
  cases k with
  | zero => simp [daysBeforeMonth]
  | succ j =>
    cases j with
    | zero =>
      show daysBeforeMonth y 1 ≤ daysBeforeMonth y 1 + daysInMonth y 1
      omega
    | succ i =>
      show daysBeforeMonth y (i + 2) ≤
        daysBeforeMonth y (i + 2) + daysInMonth y (i + 2)
      omega

theorem dBM_le (y : Nat) : ∀ m2 m1, m1 ≤ m2 →
    daysBeforeMonth y m1 ≤ daysBeforeMonth y m2 := by
  intro m2
  induction m2 with
  | zero =>
    intro m1 h
    rw [Nat.le_zero.mp h]
  | succ k ih =>
    intro m1 h
    rcases Nat.eq_or_lt_of_le h with rfl | hlt
    · exact le_refl _
    · exact le_trans (ih m1 (by omega)) (dBM_step y k)

theorem dBM_13 (y : Nat) :
    daysBeforeMonth y 13 = 365 + (if isLeapYear y then 1 else 0) := by
  cases h : isLeapYear y <;>
    simp [daysBeforeMonth, daysInMonth, h]

theorem dBM_day_le (y m d : Nat) (h3 : 1 ≤ m) (h4 : m ≤ 12)
    (h6 : d ≤ daysInMonth y m) :
    daysBeforeMonth y m + d ≤ daysBeforeMonth y 13 := by
  have hsucc : daysBeforeMonth y (m + 1) =
      daysBeforeMonth y m + daysInMonth y m := by
    cases m with
    | zero => omega
    | succ k => rfl
  have hle := dBM_le y 13 (m + 1) (by omega)
  omega

set_option maxHeartbeats 1000000 in
theorem dBY_succ (y : Nat) (hy : 1 ≤ y) :
    daysBeforeYear (y + 1) =
      daysBeforeYear y + (if isLeapYear y then 366 else 365) := by
  unfold daysBeforeYear isLeapYear
  simp only [Bool.and_eq_true, beq_iff_eq, Bool.or_eq_true, bne_iff_ne, ne_eq]
  split <;> omega

theorem dBY_mono (a b : Nat) (h1 : 1 ≤ a) (hab : a ≤ b) :
    daysBeforeYear a ≤ daysBeforeYear b := by
  induction b with
  | zero => omega
  | succ k ih =>
    rcases Nat.eq_or_lt_of_le hab with rfl | hlt
    · exact le_refl _
    · have hk : a ≤ k := by omega
      have h1k : 1 ≤ k := by omega
      have hstep := dBY_succ k h1k
      have ihk := ih hk
      split at hstep <;> omega

theorem toOrdinal_lt_of_year_lt (a b : DT) (ha : validDT a) (hb : validDT b)
    (h : a.year < b.year) : toOrdinal a < toOrdinal b := by
  obtain ⟨a1, a2, a3, a4, a5, a6, -⟩ := ha
  obtain ⟨b1, b2, b3, b4, b5, b6, -⟩ := hb
  have hA := dBM_day_le a.year a.month a.day a3 a4 a6
  have h13 := dBM_13 a.year
  have hstep := dBY_succ a.year a1
  have hmono := dBY_mono (a.year + 1) b.year (by omega) (by omega)
  unfold toOrdinal
  by_cases hl : isLeapYear a.year = true
  · rw [if_pos hl] at hstep h13
    omega
  · rw [if_neg hl] at hstep h13
    omega

theorem dtLt_of_year_lt (a b : DT) (ha : validDT a) (hb : validDT b)
    (h : a.year < b.year) : dtLt a b := by
  have hord := toOrdinal_lt_of_year_lt a b ha hb h
  obtain ⟨-, -, -, -, -, -, a7, a8, a9, a10⟩ := ha
  unfold dtLt dtKey
  omega

theorem addDay_year_le (dt : DT) : (addDay dt).year ≤ dt.year + 1 := by
  unfold addDay
  split
  · show dt.year ≤ dt.year + 1
    omega
  · split
    · show dt.year ≤ dt.year + 1
      omega
    · show dt.year + 1 ≤ dt.year + 1
      omega

theorem validDT_addDay (dt : DT) (hv : validDT dt) (hy : dt.year < 9999) :
    validDT (addDay dt) := by
  obtain ⟨h1, h2, h3, h4, h5, h6, h7, h8, h9, h10⟩ := hv
  unfold addDay
  split
  · rename_i hd
    exact ⟨h1, h2, h3, h4, show 1 ≤ dt.day + 1 by omega,
      show dt.day + 1 ≤ daysInMonth dt.year dt.month by omega, h7, h8, h9, h10⟩
  · split
    · rename_i hm
      exact ⟨h1, h2, show 1 ≤ dt.month + 1 by omega,
        show dt.month + 1 ≤ 12 by omega, le_refl 1,
        show 1 ≤ daysInMonth dt.year (dt.month + 1) from
          daysInMonth_pos dt.year (dt.month + 1), h7, h8, h9, h10⟩
    · exact ⟨show 1 ≤ dt.year + 1 by omega, show dt.year + 1 ≤ 9999 by omega,
        le_refl 1, show (1 : Nat) ≤ 12 by omega, le_refl 1,
        show 1 ≤ daysInMonth (dt.year + 1) 1 from
          daysInMonth_pos (dt.year + 1) 1, h7, h8, h9, h10⟩


/-! ### Claim theorems -/

/-- A concrete wall-clock instant used by the witnesses. -/
def nowW : DT := ⟨2025, 10, 12, 0, 0, 0, 0⟩

/-- C4: every non-`None` string returned by `validate_date` is in the
canonical zero-padded form `YYYY:MM:DD HH:MM:SS` and denotes a valid
datetime with `1990 ≤ year` and `datetime ≤ now + 1 day`. -/
theorem c4_validate_canonical_invariant (now : DT) (inp : Option String)
    (d : String) (h : validate_date now inp = some d) :
    isCanonicalShape d = true ∧
    ∃ dt, validDT dt ∧ 1990 ≤ dt.year ∧ ¬ dtLt (addDay now) dt ∧
      d = renderCanonical dt := by
  obtain ⟨dt, hv, hy, hf, hd⟩ := validate_some_spec h
  exact ⟨hd ▸ shape_render dt, dt, hv, hy, hf, hd⟩

theorem c4_witness :
    isCanonicalShape "2023:01:15 10:30:00" = true ∧
    ∃ dt, validDT dt ∧ 1990 ≤ dt.year ∧ ¬ dtLt (addDay nowW) dt ∧
      "2023:01:15 10:30:00" = renderCanonical dt :=
  c4_validate_canonical_invariant nowW (some "2023-01-15 10:30:00")
    "2023:01:15 10:30:00" (by decide)

/-- C6: the ISO, ISO-with-offset and EXIF renderings of the same instant
all validate to the same canonical string, the timezone offset being
discarded without conversion. -/
theorem c6_format_flexibility (now : DT)
    (h : ¬ dtLt (addDay now) ⟨2023, 1, 15, 10, 30, 0, 0⟩) :
    validate_date now (some "2023-01-15T10:30:00") =
      some "2023:01:15 10:30:00" ∧
    validate_date now (some "2023-01-15T10:30:00+05:30") =
      some "2023:01:15 10:30:00" ∧
    validate_date now (some "2023:01:15 10:30:00") =
      some "2023:01:15 10:30:00" := by
  refine ⟨?_, ?_, ?_⟩
  · have := validate_eq_some_of now "2023-01-15T10:30:00"
      ⟨2023, 1, 15, 10, 30, 0, 0⟩ (by decide) (by decide) (by decide)
      (by decide) h
    rw [this]
    decide
  · have := validate_eq_some_of now "2023-01-15T10:30:00+05:30"
      ⟨2023, 1, 15, 10, 30, 0, 0⟩ (by decide) (by decide) (by decide)
      (by decide) h
    rw [this]
    decide
  · have := validate_eq_some_of now "2023:01:15 10:30:00"
      ⟨2023, 1, 15, 10, 30, 0, 0⟩ (by decide) (by decide) (by decide)
      (by decide) h
    rw [this]
    decide

theorem c6_witness :
    validate_date nowW (some "2023-01-15T10:30:00") =
      some "2023:01:15 10:30:00" ∧
    validate_date nowW (some "2023-01-15T10:30:00+05:30") =
      some "2023:01:15 10:30:00" ∧
    validate_date nowW (some "2023:01:15 10:30:00") =
      some "2023:01:15 10:30:00" :=
  c6_format_flexibility nowW (by decide)

/-- C7: `validate_date` is idempotent on its own outputs (with `now`
held fixed). -/
theorem c7_validate_idempotent (now : DT) (inp : Option String) (d : String)
    (h : validate_date now inp = some d) :
    validate_date now (some d) = some d := by
  obtain ⟨dt, hv, hy, hf, hd⟩ := validate_some_spec h
  subst hd
  exact validate_render now dt hv hy hf

theorem c7_witness :
    validate_date nowW (some "2023:01:15 10:30:00") =
      some "2023:01:15 10:30:00" :=
  c7_validate_idempotent nowW (some "2023-01-15T10:30:00.123456")
    "2023:01:15 10:30:00" (by decide)

/-- C9: `validate_date` rejects the all-zero and Unix-epoch sentinels, the
empty string and `None`, a pre-1990 date, and any date five years past
`now`, always returning `None` and never raising. -/
theorem c9_garbage_and_range_rejection :
    (∀ now, validate_date now (some "0000:00:00 00:00:00") = none) ∧
    (∀ now, validate_date now (some "1970:01:01 00:00:00") = none) ∧
    (∀ now, validate_date now (some "") = none) ∧
    (∀ now, validate_date now none = none) ∧
    (∀ now, validate_date now (some "1985:06:01 00:00:00") = none) ∧
    (∀ now, validDT now → 1990 ≤ now.year → now.year ≤ 9994 →
      validate_date now
        (some (renderCanonical ⟨now.year + 5, 1, 1, 0, 0, 0, 0⟩)) = none) := by
  refine ⟨fun now => rfl, fun now => rfl, fun now => rfl, fun now => rfl,
    fun now => rfl, ?_⟩
  intro now hv hy1 hy2
  have hvP : validDT (⟨now.year + 5, 1, 1, 0, 0, 0, 0⟩ : DT) :=
    ⟨show 1 ≤ now.year + 5 by omega, show now.year + 5 ≤ 9999 by omega,
     le_refl 1, show (1 : Nat) ≤ 12 by norm_num, le_refl 1,
     show 1 ≤ daysInMonth (now.year + 5) 1 from daysInMonth_pos _ _,
     show (0 : Nat) ≤ 23 by norm_num, show (0 : Nat) ≤ 59 by norm_num,
     show (0 : Nat) ≤ 59 by norm_num, show (0 : Nat) ≤ 999999 by norm_num⟩
  have hfut : dtLt (addDay now) ⟨now.year + 5, 1, 1, 0, 0, 0, 0⟩ := by
    refine dtLt_of_year_lt _ _ (validDT_addDay now hv (by omega)) hvP ?_
    have := addDay_year_le now
    show (addDay now).year < now.year + 5
    omega
  have htl : (renderCanonical (⟨now.year + 5, 1, 1, 0, 0, 0, 0⟩ : DT)).toList =
      renderList ⟨now.year + 5, 1, 1, 0, 0, 0, 0⟩ := rfl
  have h3 : parse_date_flexible
      (pyStrip (renderCanonical (⟨now.year + 5, 1, 1, 0, 0, 0, 0⟩ : DT)).toList)
      = some ⟨now.year + 5, 1, 1, 0, 0, 0, 0⟩ := by
    rw [htl, pyStrip_render]
    exact parse_render _ hvP
  have h1 : ¬ ((renderCanonical (⟨now.year + 5, 1, 1, 0, 0, 0, 0⟩ : DT)).toList
      = [] ∨
      pyStrip (renderCanonical (⟨now.year + 5, 1, 1, 0, 0, 0, 0⟩ : DT)).toList
      = []) := by
    rw [htl, pyStrip_render]
    simp [renderList_ne_nil]
  have h2 : (GARBAGE_DATE_PATTERNS.any fun p => startsWithL p
      (pyStrip (renderCanonical (⟨now.year + 5, 1, 1, 0, 0, 0, 0⟩ : DT)).toList))
      = false := by
    rw [htl, pyStrip_render]
    exact garbage_render_false _ (show 1990 ≤ now.year + 5 by omega)
      (show now.year + 5 ≤ 9999 by omega)
  have h4 : ¬ (⟨now.year + 5, 1, 1, 0, 0, 0, 0⟩ : DT).year < 1990 := by
    show ¬ now.year + 5 < 1990
    omega
  exact validate_eq_none_future now _ _ h1 h2 h3 h4 hfut

theorem c9_witness :
    validate_date nowW (some (renderCanonical ⟨2030, 1, 1, 0, 0, 0, 0⟩)) =
      none :=
  c9_garbage_and_range_rejection.2.2.2.2.2 nowW (by decide) (by decide)
    (by decide)


/-- C8: filename tiering.  `IMG_20230615_143022.jpg` (tier 1) and
`Screenshot 2023-06-15 at 14.30.22.png` (tier 2) both yield
`"2023:06:15 14:30:22"`, a filename with no date token yields nothing,
and a date-only filename (tier 3) defaults the time of day to noon
(`20230615.jpg` yields `"2023:06:15 12:00:00"`). -/
theorem c8_filename_tiering (now : DT)
    (h : ¬ dtLt (addDay now) ⟨2023, 6, 15, 14, 30, 22, 0⟩) :
    extract_date_from_filename now "IMG_20230615_143022.jpg" =
      some "2023:06:15 14:30:22" ∧
    extract_date_from_filename now "Screenshot 2023-06-15 at 14.30.22.png" =
      some "2023:06:15 14:30:22" ∧
    (∀ now2, extract_date_from_filename now2 "vacation.jpg" = none) ∧
    extract_date_from_filename now "20230615.jpg" =
      some "2023:06:15 12:00:00" := by
  refine ⟨?_, ?_, fun now2 => rfl, ?_⟩
  · rw [show extract_date_from_filename now "IMG_20230615_143022.jpg" =
        validate_date now (some (renderCanonical ⟨2023, 6, 15, 14, 30, 22, 0⟩))
        from rfl,
      validate_render now ⟨2023, 6, 15, 14, 30, 22, 0⟩ (by decide) (by decide) h]
    decide
  · rw [show extract_date_from_filename now
        "Screenshot 2023-06-15 at 14.30.22.png" =
        validate_date now (some (renderCanonical ⟨2023, 6, 15, 14, 30, 22, 0⟩))
        from rfl,
      validate_render now ⟨2023, 6, 15, 14, 30, 22, 0⟩ (by decide) (by decide) h]
    decide
  · have hk : dtKey ⟨2023, 6, 15, 12, 0, 0, 0⟩ ≤
        dtKey ⟨2023, 6, 15, 14, 30, 22, 0⟩ := by decide
    have h4 : ¬ dtLt (addDay now) ⟨2023, 6, 15, 12, 0, 0, 0⟩ := by
      intro hc
      apply h
      unfold dtLt at hc ⊢
      omega
    rw [show extract_date_from_filename now "20230615.jpg" =
        validate_date now (some (renderCanonical ⟨2023, 6, 15, 12, 0, 0, 0⟩))
        from rfl,
      validate_render now ⟨2023, 6, 15, 12, 0, 0, 0⟩ (by decide) (by decide) h4]
    decide

theorem c8_witness :
    extract_date_from_filename nowW "IMG_20230615_143022.jpg" =
      some "2023:06:15 14:30:22" ∧
    extract_date_from_filename nowW "Screenshot 2023-06-15 at 14.30.22.png" =
      some "2023:06:15 14:30:22" ∧
    (∀ now2, extract_date_from_filename now2 "vacation.jpg" = none) ∧
    extract_date_from_filename nowW "20230615.jpg" =
      some "2023:06:15 12:00:00" :=
  c8_filename_tiering nowW (by decide)

/-- C10: a tier that structurally matches and builds a datetime returns
`validate_date` of it immediately, never trying later tiers: a filename
whose tier-1 token is pre-1990 yields `None` even though its tier-2
token alone would validate; only `datetime`-construction failure (the
`99999999_999999` token) falls through to the next tier. -/
theorem c10_tier_short_circuit (now : DT)
    (h : ¬ dtLt (addDay now) ⟨2023, 6, 15, 10, 30, 45, 0⟩) :
    (∀ now2, extract_date_from_filename now2
      "19800101_120000_2023-06-15-10.30.45.jpg" = none) ∧
    extract_date_from_filename now "2023-06-15-10.30.45.jpg" =
      some "2023:06:15 10:30:45" ∧
    extract_date_from_filename now "99999999_999999 2023-06-15 at 10.30.45.jpg"
      = some "2023:06:15 10:30:45" := by
  refine ⟨?_, ?_, ?_⟩
  · intro now2
    rw [show extract_date_from_filename now2
        "19800101_120000_2023-06-15-10.30.45.jpg" =
        validate_date now2 (some (renderCanonical ⟨1980, 1, 1, 12, 0, 0, 0⟩))
        from rfl]
    exact validate_eq_none_year now2 _ ⟨1980, 1, 1, 12, 0, 0, 0⟩ (by decide)
      (by decide) (by decide) (by decide)
  · rw [show extract_date_from_filename now "2023-06-15-10.30.45.jpg" =
        validate_date now (some (renderCanonical ⟨2023, 6, 15, 10, 30, 45, 0⟩))
        from rfl,
      validate_render now ⟨2023, 6, 15, 10, 30, 45, 0⟩ (by decide) (by decide) h]
    decide
  · rw [show extract_date_from_filename now
        "99999999_999999 2023-06-15 at 10.30.45.jpg" =
        validate_date now (some (renderCanonical ⟨2023, 6, 15, 10, 30, 45, 0⟩))
        from rfl,
      validate_render now ⟨2023, 6, 15, 10, 30, 45, 0⟩ (by decide) (by decide) h]
    decide

theorem c10_witness :
    (∀ now2, extract_date_from_filename now2
      "19800101_120000_2023-06-15-10.30.45.jpg" = none) ∧
    extract_date_from_filename nowW "2023-06-15-10.30.45.jpg" =
      some "2023:06:15 10:30:45" ∧
    extract_date_from_filename nowW "99999999_999999 2023-06-15 at 10.30.45.jpg"
      = some "2023:06:15 10:30:45" :=
  c10_tier_short_circuit nowW (by decide)


theorem get_flags (now : DT) (env : Env) :
    (get_file_creation_date now env).exifCalled =
      (metadataStages env).exifCalled ∧
    (get_file_creation_date now env).pillowCalled =
      (metadataStages env).pillowCalled := by
  constructor <;>
  · simp only [get_file_creation_date]
    cases hm : (metadataStages env).md with
    | error e => simp [hm]
    | ok md =>
      simp only [hm]
      split
      · rfl
      · split
        · rfl
        · split
          · rfl
          · split
            · rfl
            · rfl

theorem metadataStages_video (env : Env)
    (h : VIDEO_EXTRACTORS_KEYS.contains env.ext = true) :
    (metadataStages env).exifCalled = false ∧
    (metadataStages env).pillowCalled = false := by
  unfold metadataStages
  cases h1 : resolverStep1 env with
  | error e => exact ⟨rfl, rfl⟩
  | ok md1 =>
    simp only [h, Bool.not_true, Bool.and_false]
    cases h2 : stepGuarded false env.exifRes caughtByStep2 md1 with
    | error e => exact ⟨rfl, rfl⟩
    | ok md2 =>
      simp only
      cases h3 : stepGuarded false env.pillowRes (fun _ => false) md2 with
      | error e => exact ⟨rfl, rfl⟩
      | ok md3 =>
        simp only
        cases h4 : stepGuarded (!truthyStr md3) env.xmpRes (fun _ => false) md3
          with
        | error e => exact ⟨rfl, rfl⟩
        | ok md4 => exact ⟨rfl, rfl⟩

/-- C5: for a file whose extension is a key of `VIDEO_EXTRACTORS`, the
resolver never invokes `extract_exif_data` (step 2) nor
`extract_exif_via_pillow` (step 3). -/
theorem c5_video_short_circuit (now : DT) (env : Env)
    (h : VIDEO_EXTRACTORS_KEYS.contains env.ext = true) :
    (get_file_creation_date now env).exifCalled = false ∧
    (get_file_creation_date now env).pillowCalled = false := by
  obtain ⟨h1, h2⟩ := get_flags now env
  obtain ⟨h3, h4⟩ := metadataStages_video env h
  exact ⟨h1.trans h3, h2.trans h4⟩

/-- A video-extension environment used by the C5 witness. -/
def envVid : Env :=
  { ext := ".mp4", filename := "video.mp4", extractorRes := Except.ok none,
    exifRes := Except.ok (some "2020:01:01 00:00:00"),
    pillowRes := Except.ok none, xmpRes := Except.ok none,
    fsRes := Except.ok none }

theorem c5_witness :
    (get_file_creation_date nowW envVid).exifCalled = false ∧
    (get_file_creation_date nowW envVid).pillowCalled = false :=
  c5_video_short_circuit nowW envVid (by decide)


/-- C3: when both a metadata-derived date (stages 1-4) and a
filename-derived date exist, the resolver returns the metadata date
(never an error), the cross-reference runs, and if the two dates are
more than 86400 seconds apart the mismatch warning naming both values
is emitted. -/
theorem c3_metadata_wins_with_warning (now : DT) (env : Env) (m f : String)
    (h1 : metadataDate env = Except.ok (some m)) (hm : m ≠ "")
    (h2 : extract_date_from_filename now env.filename = some f) (hf : f ≠ "") :
    (get_file_creation_date now env).result = Except.ok (some m) ∧
    (get_file_creation_date now env).mismatchWarn = cross_reference_dates m f ∧
    (∀ a b, (requireEnd (structFmt ':' ' ' m.toList)).bind checkDT = some a →
      (requireEnd (structFmt ':' ' ' f.toList)).bind checkDT = some b →
      86400 < ((dtKey a : Int) / 1000000 - (dtKey b : Int) / 1000000).natAbs →
      (get_file_creation_date now env).mismatchWarn = some (m, f)) := by
  have htm : truthyStr (some m) = true := by
    simp only [truthyStr, Bool.not_eq_true']
    rw [Bool.eq_false_iff]
    intro hc
    exact hm ((String.isEmpty_iff m).mp hc)
  have htf : truthyStr (some f) = true := by
    simp only [truthyStr, Bool.not_eq_true']
    rw [Bool.eq_false_iff]
    intro hc
    exact hf ((String.isEmpty_iff f).mp hc)
  unfold metadataDate at h1
  unfold get_file_creation_date
  simp only [h1, h2, htm, htf, Bool.and_self, if_true]
  refine ⟨trivial, trivial, ?_⟩
  intro a b ha hb hd
  simp only [cross_reference_dates, ha, hb]
  rw [if_pos hd]

/-- The C3 witness environment: a registered extractor yields a
metadata date and the filename carries a conflicting date. -/
def envC3 : Env :=
  { ext := ".png", filename := "IMG_20230615_143022.jpg",
    extractorRes := Except.ok (some "2023:01:15 10:30:00"),
    exifRes := Except.ok none, pillowRes := Except.ok none,
    xmpRes := Except.ok none, fsRes := Except.ok none }

theorem c3_witness :
    (get_file_creation_date nowW envC3).result =
      Except.ok (some "2023:01:15 10:30:00") ∧
    (get_file_creation_date nowW envC3).mismatchWarn =
      cross_reference_dates "2023:01:15 10:30:00" "2023:06:15 14:30:22" ∧
    (∀ a b, (requireEnd (structFmt ':' ' ' ("2023:01:15 10:30:00").toList)).bind
        checkDT = some a →
      (requireEnd (structFmt ':' ' ' ("2023:06:15 14:30:22").toList)).bind
        checkDT = some b →
      86400 < ((dtKey a : Int) / 1000000 - (dtKey b : Int) / 1000000).natAbs →
      (get_file_creation_date nowW envC3).mismatchWarn =
        some ("2023:01:15 10:30:00", "2023:06:15 14:30:22")) :=
  c3_metadata_wins_with_warning nowW envC3 "2023:01:15 10:30:00"
    "2023:06:15 14:30:22" (by decide) (by decide) (by decide) (by decide)


theorem stepGuarded_ok (call : Bool) (r : Option String) (caught : PyErr → Bool)
    (md : Option String) :
    ∃ v, stepGuarded call (Except.ok r) caught md = Except.ok v := by
  cases call with
  | false => exact ⟨md, rfl⟩
  | true => exact ⟨if truthyStr r then r else md, rfl⟩

/-- The C1 counterexample environment: a registered (`.png`) extension
whose extractor raises `ValueError`. -/
def envC1cex : Env :=
  { ext := ".png", filename := "photo.png",
    extractorRes := Except.error PyErr.valueError,
    exifRes := Except.ok none, pillowRes := Except.ok none,
    xmpRes := Except.ok none, fsRes := Except.ok none }

/-- C1 counterexample: with a registered extractor that raises, the
exception propagates out of `get_file_creation_date` (the step-1 call at
organize_photos.py line 170 is unguarded), so the resolver does not
proceed to the next stage and does not return a value or `None`. -/
theorem c1_counterexample :
    (get_file_creation_date nowW envC1cex).result =
      Except.error PyErr.valueError := by
  decide

/-- C1 (amended): an exception raised by a registered format extractor
propagates out of `get_file_creation_date` unchanged; when every stage
returns normally (as the shipped extractors do by catching their own
errors internally), the resolver returns a value or `None` without
raising. -/
theorem c1_extractor_exception_propagates (now : DT) (env : Env) :
    (∀ e, FILE_TYPE_EXTRACTORS_KEYS.contains env.ext = true →
      env.extractorRes = Except.error e →
      (get_file_creation_date now env).result = Except.error e) ∧
    (∀ r1 r2 r3 r4 r5, env.extractorRes = Except.ok r1 →
      env.exifRes = Except.ok r2 → env.pillowRes = Except.ok r3 →
      env.xmpRes = Except.ok r4 → env.fsRes = Except.ok r5 →
      ∃ v, (get_file_creation_date now env).result = Except.ok v) := by
  constructor
  · intro e hc he
    have hstep1 : resolverStep1 env = Except.error e := by
      unfold resolverStep1
      rw [if_pos hc, he]
    have hmd : (metadataStages env).md = Except.error e := by
      unfold metadataStages
      rw [hstep1]
    unfold get_file_creation_date
    simp only [hmd]
  · intro r1 r2 r3 r4 r5 he1 he2 he3 he4 he5
    have hs1 : ∃ v, resolverStep1 env = Except.ok v := by
      unfold resolverStep1
      rw [he1]
      split
      · exact ⟨if truthyStr r1 then r1 else none, rfl⟩
      · exact ⟨none, rfl⟩
    obtain ⟨v1, hs1⟩ := hs1
    have hmd : ∃ v, (metadataStages env).md = Except.ok v := by
      unfold metadataStages
      rw [hs1]
      simp only [he2, he3, he4]
      obtain ⟨v2, hv2⟩ := stepGuarded_ok
        (!truthyStr v1 && !VIDEO_EXTRACTORS_KEYS.contains env.ext) r2
        caughtByStep2 v1
      rw [hv2]
      simp only
      obtain ⟨v3, hv3⟩ := stepGuarded_ok
        (!truthyStr v2 && !VIDEO_EXTRACTORS_KEYS.contains env.ext) r3
        (fun _ => false) v2
      rw [hv3]
      simp only
      obtain ⟨v4, hv4⟩ := stepGuarded_ok (!truthyStr v3) r4 (fun _ => false) v3
      rw [hv4]
      exact ⟨v4, rfl⟩
    obtain ⟨mdv, hmd⟩ := hmd
    unfold get_file_creation_date
    simp only [hmd, he5]
    split
    · exact ⟨mdv, rfl⟩
    · split
      · exact ⟨mdv, rfl⟩
      · split
        · exact ⟨extract_date_from_filename now env.filename, rfl⟩
        · exact ⟨if truthyStr r5 then r5 else none, rfl⟩

/-- The C1 witness environment: a registered (`.heic`) extension whose
extractor raises `OSError`. -/
def envC1w : Env :=
  { ext := ".heic", filename := "img.heic",
    extractorRes := Except.error PyErr.osError,
    exifRes := Except.ok none, pillowRes := Except.ok none,
    xmpRes := Except.ok none, fsRes := Except.ok none }

theorem c1_witness :
    (get_file_creation_date nowW envC1w).result =
      Except.error PyErr.osError :=
  (c1_extractor_exception_propagates nowW envC1w).1 PyErr.osError
    (by decide) rfl


/-- C2 counterexample: with `pillow_heif` absent, two consecutive calls
to `extract_heif_creation_date` from the initial (unregistered) state
attempt the import twice and log the warning twice — not "exactly once
per process" — because `_ensure_heif_support` leaves `_heif_registered`
unset on `ImportError` (heif_extractor.py lines 22-38); likewise two
calls to the RAW extractor with `exifread` absent log the warning twice
(raw_extractors.py lines 69-75). -/
theorem c2_counterexample :
    heifRun false none 2 false = (2, 2, false) ∧ rawWarnRun 2 = 2 := by
  decide

/-- C2 (amended): with the dependency absent, every call (not just the
first) re-attempts the import, logs the warning, and returns `None`,
leaving the flag unset (`n` calls give `n` warnings and `n` attempts);
only after a successful registration does the flag short-circuit the
import, and the missing-`exifread` RAW warning is likewise logged on
every call. -/
theorem c2_dependency_warning_per_call (n : Nat) (d : Option String) :
    heifRun false d n false = (n, n, false) ∧
    rawWarnRun n = n ∧
    (∀ importOk d2,
      (extract_heif_creation_date true importOk d2).importAttempted = false ∧
      (extract_heif_creation_date true importOk d2).warned = false ∧
      (extract_heif_creation_date true importOk d2).result = d2) := by
  refine ⟨?_, ?_, fun importOk d2 => ⟨rfl, rfl, rfl⟩⟩
  · induction n with
    | zero => rfl
    | succ k ih =>
      simp only [heifRun]
      rw [show extract_heif_creation_date false false d =
        { result := none, flagAfter := false, importAttempted := true,
          warned := true } from rfl]
      rw [ih]
      simp
      omega
  · induction n with
    | zero => rfl
    | succ k ih =>
      simp only [rawWarnRun]
      rw [show extract_raw_creation_date false none = (none, true) from rfl]
      simp
      omega

end PhotoOrganizer
